import Mathlib

/-!
Shallow embedding of the geometric core of the `detextify` repository
(`detextify/utils.py` and `detextify/detextifier.py`), together with
theorems settling the specification claims about it.

Conventions of the embedding:
* Python `int` coordinates become `ℤ`; the float produced by Python's true
  division in `intersection_over_union` is modelled as the exact rational.
* Python's `max(list)` (which raises `ValueError` on an empty list) becomes
  an `Option`-valued function; `np.mean([])`, which is NaN rather than a
  real number, is likewise modelled as `none`.
* The `while` loop of `merge_nearby_boxes` is embedded with explicit fuel:
  `none` means the loop has not finished within the given number of
  iterations.  (This is essential: the loop does not terminate on all
  inputs, see the theorems about it below.)
* The orchestration loop of `Detextifier.detextify` is embedded with the
  detector and in-painter as injected functions indexed by their call
  number; results are `Except`-valued to model raised exceptions, and the
  runner also returns the number of detector and in-painter calls made.
-/

namespace Detextify

/-- The `TextBox` dataclass of `detextify/utils.py`: `(x, y)` is the top left
corner; `x` is the vertical axis, `y` the horizontal one, and `text` is an
optional recognized-text label (default `None`). -/
structure TextBox where
  y : ℤ
  x : ℤ
  h : ℤ
  w : ℤ
  text : Option String := none
  deriving DecidableEq, Repr, Inhabited

/-- `overlap_y` of `utils.py`: signed length of the overlap of the two
boxes' projections on the `y` axis. -/
def overlap_y (box1 box2 : TextBox) : ℤ :=
  min (box1.y + box1.h) (box2.y + box2.h) - max box1.y box2.y

/-- `overlap_x` of `utils.py`: signed length of the overlap of the two
boxes' projections on the `x` axis. -/
def overlap_x (box1 box2 : TextBox) : ℤ :=
  min (box1.x + box1.w) (box2.x + box2.w) - max box1.x box2.x

/-- `boxes_intersect` of `utils.py`. -/
def boxes_intersect (box1 box2 : TextBox) : Bool :=
  overlap_x box1 box2 > 0 && overlap_y box1 box2 > 0

/-- The integer numerator of `intersection_over_union`:
`max(0, xb - xa + 1) * max(0, yb - ya + 1)`. -/
def intersection_area (box1 box2 : TextBox) : ℤ :=
  let ya := max box1.y box2.y
  let xa := max box1.x box2.x
  let yb := min (box1.y + box1.h) (box2.y + box2.h)
  let xb := min (box1.x + box1.w) (box2.x + box2.w)
  max 0 (xb - xa + 1) * max 0 (yb - ya + 1)

/-- `(height + 1) * (width + 1)`, the inclusive-convention area used by
`intersection_over_union` for each of its two arguments. -/
def box_area (b : TextBox) : ℤ := (b.h + 1) * (b.w + 1)

/-- `intersection_over_union` of `utils.py`, with Python's float division
modelled as exact rational division. -/
def intersection_over_union (box1 box2 : TextBox) : ℚ :=
  (intersection_area box1 box2 : ℚ) /
    ((box_area box1 : ℚ) + (box_area box2 : ℚ) - (intersection_area box1 box2 : ℚ))

/-! ### Detection quality evaluator (`multi_intersection_over_union`) -/

/-- The list `ious = [intersection_over_union(db, gb) for gb in gold_boxes]`. -/
def iouList (db : TextBox) (gold : List TextBox) : List ℚ :=
  gold.map (intersection_over_union db)

/-- Python's `max` on a list: `none` on the empty list (where Python raises
`ValueError`). -/
def listMax : List ℚ → Option ℚ
  | [] => none
  | q :: qs => some (qs.foldl max q)

/-- The set of indices `idx` with `ious[idx] == max_iou`, added to
`matched_golden_boxes` for one detected box `db` in
`multi_intersection_over_union`. -/
def argmaxIdxs (db : TextBox) (gold : List TextBox) (m : ℚ) : Finset ℕ :=
  (Finset.range gold.length).filter
    (fun idx => intersection_over_union db (gold.getD idx default) = m)

/-- The main loop of `multi_intersection_over_union`: folds the detected
boxes over the accumulator `(matched_golden_boxes, max_ious)`; `none`
models the `ValueError` raised by `max` on an empty `ious` list. -/
def multiAux (gold : List TextBox) :
    List TextBox → Finset ℕ × List ℚ → Option (Finset ℕ × List ℚ)
  | [], acc => some acc
  | db :: rest, (matched, maxIous) =>
    match listMax (iouList db gold) with
    | none => none
    | some m => multiAux gold rest (matched ∪ argmaxIdxs db gold m, maxIous ++ [m])

/-- `multi_intersection_over_union` of `utils.py`.  After the main loop, a
`0.0` is appended for every gold index not in `matched_golden_boxes`, and
the mean of the resulting list is returned.  `none` models a raised
`ValueError` (or the NaN of `np.mean([])`). -/
def multi_intersection_over_union (detected gold : List TextBox) : Option ℚ :=
  match multiAux gold detected (∅, []) with
  | none => none
  | some (matched, maxIous) =>
    let penalized := maxIous ++
      (((List.range gold.length).filter (fun idx => decide (idx ∉ matched))).map
        (fun _ => (0 : ℚ)))
    if penalized.isEmpty then none
    else some (penalized.sum / (penalized.length : ℚ))

/-- Written from the spec's words, for comparison with
`multi_intersection_over_union`: the maximum IoU of one detected region
against all gold regions. -/
def bestIou (gold : List TextBox) (db : TextBox) : ℚ :=
  (listMax (iouList db gold)).getD 0

/-- Written from the spec's words: gold index `idx` is among the arg-max
(maximum-achieving, ties included) gold indices of some detected region. -/
def isMatchedGold (detected gold : List TextBox) (idx : ℕ) : Bool :=
  detected.any
    (fun db => decide (intersection_over_union db (gold.getD idx default) = bestIou gold db))

/-- Written from the spec's words: the mean of one best-IoU value per
detected region plus one `0.0` term per never-matched gold region. -/
def averageBestIouSpec (detected gold : List TextBox) : ℚ :=
  let vals := detected.map (bestIou gold) ++
    (((List.range gold.length).filter (fun idx => !isMatchedGold detected gold idx)).map
      (fun _ => (0 : ℚ)))
  vals.sum / (vals.length : ℚ)

/-! ### Nearby-box merging (`merge_nearby_boxes`) -/

/-- `should_merge` of `merge_nearby_boxes`: overlap on one axis and gap
smaller than `max_distance` on the other. -/
def should_merge (max_distance : ℤ) (box1 box2 : TextBox) : Bool :=
  let y_overlap := overlap_y box1 box2
  let x_overlap := overlap_x box1 box2
  (x_overlap > 0 && -y_overlap < max_distance) ||
    (y_overlap > 0 && -x_overlap < max_distance)

/-- `merge` of `merge_nearby_boxes`: the smallest enclosing rectangle of a
(nonempty, given as head and tail) list of boxes.  The produced box carries
no `text` label, exactly as the source constructs
`TextBox(y=..., x=..., h=..., w=...)`. -/
def mergeBoxes (b : TextBox) (rest : List TextBox) : TextBox :=
  let tl_y := rest.foldl (fun m bb => min m bb.y) b.y
  let tl_x := rest.foldl (fun m bb => min m bb.x) b.x
  let br_y := rest.foldl (fun m bb => max m (bb.y + bb.h)) (b.y + b.h)
  let br_x := rest.foldl (fun m bb => max m (bb.x + bb.w)) (b.x + b.w)
  { y := tl_y, x := tl_x, h := br_y - tl_y, w := br_x - tl_x }

/-- `itertools.compress`: the elements of `xs` whose flag is `true`. -/
def compress (xs : List TextBox) (flags : List Bool) : List TextBox :=
  (xs.zip flags).filterMap (fun p => if p.2 then some p.1 else none)

/-- `merge_with_box` of `merge_nearby_boxes`: merges `refBox` with the
boxes of `others` that satisfy `should_merge`, keeping the rest;
when no flag is set (`sum(should_merge_with_ref) == 0`) returns
`[ref_box] + other_boxes`. -/
def merge_with_box (max_distance : ℤ) (refBox : TextBox) (others : List TextBox) :
    List TextBox :=
  let flags := others.map (should_merge max_distance refBox)
  if flags.all (fun f => !f) then refBox :: others
  else
    let toMerge := compress others flags
    let merged := mergeBoxes refBox toMerge
    let toKeep := compress others (flags.map (fun f => !f))
    merged :: toKeep

/-- One execution of the `while` loop of `merge_nearby_boxes`, with fuel:
`none` means the loop condition still held when the fuel ran out.  At each
iteration the reference box is `curr_boxes[ref_idx]` and `merge_with_box`
receives the tail slice `curr_boxes[ref_idx:]` (which contains the
reference box itself), exactly as in the source. -/
def mergeLoop (max_distance : ℤ) : ℕ → List TextBox → ℕ → Option (List TextBox)
  | 0, bs, i => if i < bs.length - 1 then none else some bs
  | fuel + 1, bs, i =>
    if i < bs.length - 1 then
      match bs.drop i with
      | [] => some bs
      | rb :: rest =>
        let before := bs.take i
        let after := merge_with_box max_distance rb (rb :: rest)
        if before.length + after.length = bs.length then
          mergeLoop max_distance fuel (before ++ after) (i + 1)
        else
          mergeLoop max_distance fuel (before ++ after) i
    else some bs

/-- `merge_nearby_boxes` of `utils.py`, run with the given amount of fuel
for its `while` loop. -/
def merge_nearby_boxes (max_distance : ℤ) (fuel : ℕ) (boxes : List TextBox) :
    Option (List TextBox) :=
  if boxes.length ≤ 1 then some boxes
  else mergeLoop max_distance fuel boxes 0

/-! ### The orchestration loop (`Detextifier.detextify`) -/

/-- The `for` loop of `Detextifier.detextify`, instrumented with the number
of detector (`dc`) and in-painter (`ic`) calls made so far.  `detect` and
`inpaint` receive their own call number as first argument; an
`Except.error` models a raised exception, which aborts the loop at once. -/
def detextifyAux {I E : Type} (detect : ℕ → I → Except E (List TextBox))
    (inpaint : ℕ → I → List TextBox → String → Except E I) (prompt : String) :
    ℕ → I → ℕ → ℕ → Except E I × ℕ × ℕ
  | 0, out, dc, ic => (Except.ok out, dc, ic)
  | n + 1, out, dc, ic =>
    match detect dc out with
    | Except.error e => (Except.error e, dc + 1, ic)
    | Except.ok boxes =>
      if boxes.isEmpty then (Except.ok out, dc + 1, ic)
      else
        match inpaint ic out boxes prompt with
        | Except.error e => (Except.error e, dc + 1, ic + 1)
        | Except.ok out2 => detextifyAux detect inpaint prompt n out2 (dc + 1) (ic + 1)

/-- `Detextifier.detextify`: runs the loop for at most `maxRetries`
iterations starting from (a copy of) the input image, with no calls made
yet. -/
def detextify {I E : Type} (detect : ℕ → I → Except E (List TextBox))
    (inpaint : ℕ → I → List TextBox → String → Except E I)
    (prompt : String) (maxRetries : ℕ) (inImage : I) : Except E I × ℕ × ℕ :=
  detextifyAux detect inpaint prompt maxRetries inImage 0 0

/-! ### Basic facts about `intersection_over_union` -/

theorem intersection_area_eq_overlaps (a b : TextBox) :
    intersection_area a b =
      max 0 (overlap_x a b + 1) * max 0 (overlap_y a b + 1) := rfl

theorem intersection_area_nonneg (a b : TextBox) : 0 ≤ intersection_area a b := by
  rw [intersection_area_eq_overlaps]
  exact mul_nonneg (le_max_left _ _) (le_max_left _ _)

theorem one_le_box_area (a : TextBox) (h1 : 0 ≤ a.h) (h2 : 0 ≤ a.w) :
    1 ≤ box_area a := by
  unfold box_area; nlinarith

theorem intersection_area_le_left (a b : TextBox) (h1 : 0 ≤ a.h) (h2 : 0 ≤ a.w) :
    intersection_area a b ≤ box_area a := by
  rw [intersection_area_eq_overlaps]
  unfold box_area
  have hx : max 0 (overlap_x a b + 1) ≤ a.w + 1 := by
    unfold overlap_x
    have h3 : min (a.x + a.w) (b.x + b.w) ≤ a.x + a.w := min_le_left _ _
    have h4 : a.x ≤ max a.x b.x := le_max_left _ _
    omega
  have hy : max 0 (overlap_y a b + 1) ≤ a.h + 1 := by
    unfold overlap_y
    have h3 : min (a.y + a.h) (b.y + b.h) ≤ a.y + a.h := min_le_left _ _
    have h4 : a.y ≤ max a.y b.y := le_max_left _ _
    omega
  have hx0 : (0 : ℤ) ≤ max 0 (overlap_x a b + 1) := le_max_left _ _
  have hy0 : (0 : ℤ) ≤ max 0 (overlap_y a b + 1) := le_max_left _ _
  nlinarith

theorem intersection_area_comm (a b : TextBox) :
    intersection_area a b = intersection_area b a := by
  unfold intersection_area
  rw [max_comm a.y b.y, max_comm a.x b.x, min_comm (a.y + a.h) (b.y + b.h),
    min_comm (a.x + a.w) (b.x + b.w)]

theorem intersection_area_le_right (a b : TextBox) (h1 : 0 ≤ b.h) (h2 : 0 ≤ b.w) :
    intersection_area a b ≤ box_area b := by
  rw [intersection_area_comm]
  exact intersection_area_le_left b a h1 h2

theorem iou_denom_pos (a b : TextBox) (ha1 : 0 ≤ a.h) (ha2 : 0 ≤ a.w)
    (hb1 : 0 ≤ b.h) (hb2 : 0 ≤ b.w) :
    0 < box_area a + box_area b - intersection_area a b := by
  have h1 := intersection_area_le_right a b hb1 hb2
  have h2 := one_le_box_area a ha1 ha2
  omega

/-- Claim **C9**: `intersection_over_union` is symmetric in its two arguments:
for every pair of boxes `a`, `b`, `intersection_over_union(a, b) ==
intersection_over_union(b, a)`. -/
theorem iou_symm (a b : TextBox) :
    intersection_over_union a b = intersection_over_union b a := by
  unfold intersection_over_union
  rw [intersection_area_comm, add_comm (box_area a : ℚ) (box_area b : ℚ)]

/-- Claim **C8**: for boxes with nonnegative height and width,
`intersection_over_union` is well defined (its divisor
`area(a) + area(b) - intersection` is strictly positive), equals, as an
exact rational, `max(0, xb-xa+1)*max(0, yb-ya+1)` divided by
`(a.h+1)*(a.w+1) + (b.h+1)*(b.w+1) - intersection`, and lies in `[0, 1]`. -/
theorem iou_well_defined_unit_interval (a b : TextBox) (ha1 : 0 ≤ a.h)
    (ha2 : 0 ≤ a.w) (hb1 : 0 ≤ b.h) (hb2 : 0 ≤ b.w) :
    0 < (box_area a : ℚ) + (box_area b : ℚ) - (intersection_area a b : ℚ) ∧
    intersection_over_union a b =
      ((max 0 (min (a.x + a.w) (b.x + b.w) - max a.x b.x + 1) *
          max 0 (min (a.y + a.h) (b.y + b.h) - max a.y b.y + 1) : ℤ) : ℚ) /
        (((a.h + 1) * (a.w + 1) + (b.h + 1) * (b.w + 1) -
          (intersection_area a b : ℤ) : ℤ) : ℚ) ∧
    0 ≤ intersection_over_union a b ∧ intersection_over_union a b ≤ 1 := by
  have hpos : 0 < box_area a + box_area b - intersection_area a b :=
    iou_denom_pos a b ha1 ha2 hb1 hb2
  have hposQ : 0 < (box_area a : ℚ) + (box_area b : ℚ) - (intersection_area a b : ℚ) := by
    exact_mod_cast hpos
  refine ⟨hposQ, ?_, ?_, ?_⟩
  · unfold intersection_over_union
    norm_cast
  · unfold intersection_over_union
    refine div_nonneg ?_ (le_of_lt hposQ)
    exact_mod_cast intersection_area_nonneg a b
  · unfold intersection_over_union
    rw [div_le_one hposQ]
    have h1 := intersection_area_le_left a b ha1 ha2
    have h2 := intersection_area_le_right a b hb1 hb2
    have : (intersection_area a b : ℤ) ≤ box_area a + box_area b - intersection_area a b := by
      omega
    exact_mod_cast this

/-- Witness for C8 at the concrete boxes `(0,0,5,5)` and `(3,3,5,5)`. -/
theorem iou_well_defined_unit_interval_witness :
    (0 : ℤ) ≤ (5 : ℤ) ∧
    0 < (box_area ⟨0, 0, 5, 5, none⟩ : ℚ) + (box_area ⟨3, 3, 5, 5, none⟩ : ℚ) -
        (intersection_area ⟨0, 0, 5, 5, none⟩ ⟨3, 3, 5, 5, none⟩ : ℚ) ∧
    0 ≤ intersection_over_union ⟨0, 0, 5, 5, none⟩ ⟨3, 3, 5, 5, none⟩ ∧
    intersection_over_union ⟨0, 0, 5, 5, none⟩ ⟨3, 3, 5, 5, none⟩ ≤ 1 := by
  have h := iou_well_defined_unit_interval ⟨0, 0, 5, 5, none⟩ ⟨3, 3, 5, 5, none⟩
    (by decide) (by decide) (by decide) (by decide)
  exact ⟨by decide, h.1, h.2.2.1, h.2.2.2⟩

/-- Counterexample to **C1** as stated: the boxes `(y=0,x=0,h=5,w=5)` and
`(y=5,x=5,h=5,w=5)` have overlap exactly `0` on both axes (they touch),
`boxes_intersect` is `False`, yet `intersection_over_union` is
`1/71 ≠ 0.0`, because the inclusive `+1` convention gives the touching
corner an intersection area of `1`. -/
theorem touching_boxes_iou_counterexample :
    overlap_x (⟨0, 0, 5, 5, none⟩ : TextBox) ⟨5, 5, 5, 5, none⟩ = 0 ∧
    overlap_y (⟨0, 0, 5, 5, none⟩ : TextBox) ⟨5, 5, 5, 5, none⟩ = 0 ∧
    boxes_intersect (⟨0, 0, 5, 5, none⟩ : TextBox) ⟨5, 5, 5, 5, none⟩ = false ∧
    intersection_over_union (⟨0, 0, 5, 5, none⟩ : TextBox) ⟨5, 5, 5, 5, none⟩ = 1 / 71 ∧
    intersection_over_union (⟨0, 0, 5, 5, none⟩ : TextBox) ⟨5, 5, 5, 5, none⟩ ≠ 0 := by
  have h1 : intersection_area (⟨0, 0, 5, 5, none⟩ : TextBox) ⟨5, 5, 5, 5, none⟩ = 1 := by
    decide
  have h2 : box_area (⟨0, 0, 5, 5, none⟩ : TextBox) = 36 := by decide
  have h3 : box_area (⟨5, 5, 5, 5, none⟩ : TextBox) = 36 := by decide
  have h4 : intersection_over_union (⟨0, 0, 5, 5, none⟩ : TextBox) ⟨5, 5, 5, 5, none⟩ =
      1 / 71 := by
    rw [intersection_over_union, h1, h2, h3]
    norm_num
  refine ⟨by decide, by decide, by decide, h4, by rw [h4]; norm_num⟩

/-- Claim **C1 (amended)**: for regions with nonnegative height and width and no
positive overlap on either axis, `boxes_intersect` returns `False`; and
`intersection_over_union` returns exactly `0.0` iff the overlap on at
least one axis is strictly negative (a gap of at least one pixel).  When
the overlap is exactly `0` on both axes (touching regions) the IoU is
positive. -/
theorem no_overlap_intersect_false_iou_zero_iff (a b : TextBox) (ha1 : 0 ≤ a.h)
    (ha2 : 0 ≤ a.w) (hb1 : 0 ≤ b.h) (hb2 : 0 ≤ b.w)
    (hx : overlap_x a b ≤ 0) (hy : overlap_y a b ≤ 0) :
    boxes_intersect a b = false ∧
    (intersection_over_union a b = 0 ↔ overlap_x a b < 0 ∨ overlap_y a b < 0) := by
  constructor
  · unfold boxes_intersect
    simp only [Bool.and_eq_false_imp, decide_eq_true_eq, decide_eq_false_iff_not]
    intro h
    omega
  · have hpos : 0 < box_area a + box_area b - intersection_area a b :=
      iou_denom_pos a b ha1 ha2 hb1 hb2
    have hne : (box_area a : ℚ) + (box_area b : ℚ) - (intersection_area a b : ℚ) ≠ 0 := by
      have : (0 : ℚ) < (box_area a : ℚ) + (box_area b : ℚ) - (intersection_area a b : ℚ) := by
        exact_mod_cast hpos
      exact ne_of_gt this
    unfold intersection_over_union
    rw [div_eq_zero_iff]
    constructor
    · rintro (h | h)
      · have h0 : intersection_area a b = 0 := by exact_mod_cast h
        rw [intersection_area_eq_overlaps] at h0
        rcases mul_eq_zero.mp h0 with h1 | h1 <;> omega
      · exact absurd h hne
    · intro h
      left
      have h0 : intersection_area a b = 0 := by
        rw [intersection_area_eq_overlaps]
        rcases h with h1 | h1
        · have : max 0 (overlap_x a b + 1) = 0 := by omega
          rw [this, zero_mul]
        · have : max 0 (overlap_y a b + 1) = 0 := by omega
          rw [this, mul_zero]
      exact_mod_cast h0

/-- Witness for the amended C1 at the touching boxes of the counterexample
and at boxes with a one-pixel gap. -/
theorem no_overlap_intersect_false_iou_zero_iff_witness :
    (boxes_intersect (⟨0, 0, 5, 5, none⟩ : TextBox) ⟨7, 7, 5, 5, none⟩ = false ∧
      (intersection_over_union (⟨0, 0, 5, 5, none⟩ : TextBox) ⟨7, 7, 5, 5, none⟩ = 0 ↔
        overlap_x (⟨0, 0, 5, 5, none⟩ : TextBox) ⟨7, 7, 5, 5, none⟩ < 0 ∨
        overlap_y (⟨0, 0, 5, 5, none⟩ : TextBox) ⟨7, 7, 5, 5, none⟩ < 0)) :=
  no_overlap_intersect_false_iou_zero_iff ⟨0, 0, 5, 5, none⟩ ⟨7, 7, 5, 5, none⟩
    (by decide) (by decide) (by decide) (by decide) (by decide) (by decide)

/-- Claim **C10**: `multi_intersection_over_union` is partial at its public
interface: for every non-empty detected sequence and empty gold sequence
it fails (Python's `max` raises on the empty list of IoUs) instead of
returning a score. -/
theorem multi_iou_empty_gold_fails (detected : List TextBox) (h : detected ≠ []) :
    multi_intersection_over_union detected [] = none := by
  match detected, h with
  | db :: rest, _ =>
    simp [multi_intersection_over_union, multiAux, iouList, listMax]

/-- Witness for C10 at the singleton detected list `[(0,0,5,5)]`. -/
theorem multi_iou_empty_gold_fails_witness :
    multi_intersection_over_union [⟨0, 0, 5, 5, none⟩] [] = none :=
  multi_iou_empty_gold_fails [⟨0, 0, 5, 5, none⟩] (by simp)

/-! ### The orchestration loop: claims C5, C6, C7 -/

/-- Claim **C5**: for every input image, prompt and `max_retries ≥ 1`, if the
detector returns an empty list of boxes on its first call, then
`Detextifier.detextify` returns an image equal to the input image after
exactly one detector call and zero in-painter calls. -/
theorem detextify_empty_first_detection {I E : Type}
    (detect : ℕ → I → Except E (List TextBox))
    (inpaint : ℕ → I → List TextBox → String → Except E I)
    (prompt : String) (maxRetries : ℕ) (img : I)
    (hretries : 1 ≤ maxRetries) (hdet : detect 0 img = Except.ok []) :
    detextify detect inpaint prompt maxRetries img = (Except.ok img, 1, 0) := by
  obtain ⟨n, rfl⟩ : ∃ n, maxRetries = n + 1 :=
    ⟨maxRetries - 1, (Nat.succ_pred_eq_of_pos hretries).symm⟩
  unfold detextify detextifyAux
  rw [hdet]
  simp

/-- Witness for C5: a detector stub that always answers `[]`, with
`max_retries = 1`, on the image `0 : ℕ`. -/
theorem detextify_empty_first_detection_witness :
    detextify (I := ℕ) (E := Unit) (fun _ _ => Except.ok [])
      (fun _ i _ _ => Except.ok i) "prompt" 1 0 = (Except.ok 0, 1, 0) :=
  detextify_empty_first_detection _ _ "prompt" 1 0 (by decide) rfl

/-- Claim **C6**: with a detector that returns the non-empty `D n i` on its
`n`-th call on image `i` and never raises, an in-painter that returns
`R n i bs p` and never raises, and `max_retries = 3`,
`Detextifier.detextify` makes exactly 3 detector calls and 3 in-painter
calls, terminates by budget exhaustion, and returns the image of the last
in-painter call, each in-painter call receiving the image produced by the
previous iteration. -/
theorem detextify_budget_exhaustion {I E : Type}
    (D : ℕ → I → List TextBox) (R : ℕ → I → List TextBox → String → I)
    (prompt : String) (img : I) (hne : ∀ n i, D n i ≠ []) :
    detextify (E := E) (fun n i => Except.ok (D n i))
      (fun n i bs p => Except.ok (R n i bs p)) prompt 3 img =
      (Except.ok
        (R 2 (R 1 (R 0 img (D 0 img) prompt)
                (D 1 (R 0 img (D 0 img) prompt)) prompt)
          (D 2 (R 1 (R 0 img (D 0 img) prompt)
                (D 1 (R 0 img (D 0 img) prompt)) prompt)) prompt), 3, 3) := by
  have hiter : ∀ n i, (D n i).isEmpty = false := by
    intro n i
    simpa [List.isEmpty_iff] using hne n i
  simp [detextify, detextifyAux, hiter]

/-- Witness for C6: the detector always reports one box, the in-painter
increments a counter image starting at `0`; three rounds yield image `3`
with 3 detect and 3 in-paint calls. -/
theorem detextify_budget_exhaustion_witness :
    detextify (I := ℕ) (E := Unit) (fun _ _ => Except.ok [⟨0, 0, 5, 5, none⟩])
      (fun _ i _ _ => Except.ok (i + 1)) "prompt" 3 0 = (Except.ok 3, 3, 3) :=
  detextify_budget_exhaustion (fun _ _ => [⟨0, 0, 5, 5, none⟩])
    (fun _ i _ _ => i + 1) "prompt" 0 (fun _ _ => by simp)

/-- Claim **C7**: `Detextifier.detextify` does not catch capability failures: if
the detector's first call returns a non-empty list of boxes and the
in-painter raises on its first call, the failure propagates to the caller
after exactly 1 detector call and 1 in-painter call, with no further calls
to either. -/
theorem detextify_propagates_inpainter_failure {I E : Type}
    (detect : ℕ → I → Except E (List TextBox))
    (inpaint : ℕ → I → List TextBox → String → Except E I)
    (prompt : String) (maxRetries : ℕ) (img : I) (boxes : List TextBox) (e : E)
    (hretries : 1 ≤ maxRetries) (hdet : detect 0 img = Except.ok boxes)
    (hne : boxes ≠ []) (hinp : inpaint 0 img boxes prompt = Except.error e) :
    detextify detect inpaint prompt maxRetries img = (Except.error e, 1, 1) := by
  obtain ⟨n, rfl⟩ : ∃ n, maxRetries = n + 1 :=
    ⟨maxRetries - 1, (Nat.succ_pred_eq_of_pos hretries).symm⟩
  have hiter : boxes.isEmpty = false := by simpa [List.isEmpty_iff] using hne
  simp [detextify, detextifyAux, hdet, hiter, hinp]

/-- Witness for C7: an in-painter that raises `()` on every call, behind a
detector that reports one box, with `max_retries = 5`. -/
theorem detextify_propagates_inpainter_failure_witness :
    detextify (I := ℕ) (E := Unit) (fun _ _ => Except.ok [⟨0, 0, 5, 5, none⟩])
      (fun _ _ _ _ => Except.error ()) "prompt" 5 0 = (Except.error (), 1, 1) :=
  detextify_propagates_inpainter_failure _ _ "prompt" 5 0 [⟨0, 0, 5, 5, none⟩] ()
    (by decide) rfl (by simp) rfl

/-! ### Nontermination of `merge_nearby_boxes` -/

/-- When the reference box merges with nothing in the tail slice — not even
with its own copy inside the slice — `merge_with_box` returns
`[ref_box] + other_boxes`, so the working list grows by one duplicate of
the reference box. -/
theorem merge_with_box_no_merge (d : ℤ) (A : TextBox) (others : List TextBox)
    (h : ∀ b ∈ others, should_merge d A b = false) :
    merge_with_box d A others = A :: others := by
  have hall : (others.map (should_merge d A)).all (fun f => !f) = true := by
    rw [List.all_eq_true]
    intro f hf
    simp only [List.mem_map] at hf
    obtain ⟨b, hb, rfl⟩ := hf
    simp [h b hb]
  unfold merge_with_box
  rw [if_pos hall]

/-- The loop of `merge_nearby_boxes` never finishes, with any amount of
fuel, once the reference box at index `0` merges with nothing in its own
slice (including itself): each iteration duplicates it. -/
theorem mergeLoop_diverges (d : ℤ) (A : TextBox)
    (hAA : should_merge d A A = false) :
    ∀ (fuel : ℕ) (rest : List TextBox), rest ≠ [] →
      (∀ b ∈ rest, should_merge d A b = false) →
      mergeLoop d fuel (A :: rest) 0 = none := by
  intro fuel
  induction fuel with
  | zero =>
    intro rest hne _
    have hlen : 0 < (A :: rest).length - 1 := by
      cases rest with
      | nil => exact absurd rfl hne
      | cons r rs => simp
    unfold mergeLoop
    rw [if_pos hlen]
  | succ n ih =>
    intro rest hne hrest
    have hlen : 0 < (A :: rest).length - 1 := by
      cases rest with
      | nil => exact absurd rfl hne
      | cons r rs => simp
    have hall : ∀ b ∈ A :: rest, should_merge d A b = false := by
      intro b hb
      rcases List.mem_cons.mp hb with rfl | hb
      · exact hAA
      · exact hrest b hb
    have hafter : merge_with_box d A (A :: rest) = A :: A :: rest :=
      merge_with_box_no_merge d A (A :: rest) hall
    show mergeLoop d (n + 1) (A :: rest) 0 = none
    rw [mergeLoop]
    rw [if_pos hlen]
    simp only [List.drop_zero]
    simp only [List.take_zero, hafter, List.length_nil, List.length_cons,
      List.nil_append]
    rw [if_neg (by omega)]
    exact ih (A :: rest) (by simp) hall

/-- Claim **C4** (evaluating the code at the failing input): on the two
degenerate boxes `(y=0,x=0,h=0,w=0)` and `(y=50,x=50,h=0,w=0)` with
`max_distance = 0`, `merge_nearby_boxes` never returns, no matter how many
loop iterations it is allowed: the reference box satisfies `should_merge`
neither with itself nor with the other box, so `merge_with_box` (called
with a tail slice that contains the reference box itself) returns
`[ref_box] + other_boxes`, the working list grows by one duplicate per
iteration, and `ref_idx` never advances. -/
theorem merge_nearby_boxes_diverges_on_degenerate_boxes :
    ¬ ∃ fuel : ℕ,
      (merge_nearby_boxes 0 fuel
        [⟨0, 0, 0, 0, none⟩, ⟨50, 50, 0, 0, none⟩]).isSome = true := by
  rintro ⟨fuel, hf⟩
  have h : merge_nearby_boxes 0 fuel [⟨0, 0, 0, 0, none⟩, ⟨50, 50, 0, 0, none⟩] = none := by
    unfold merge_nearby_boxes
    rw [if_neg (by simp)]
    exact mergeLoop_diverges 0 ⟨0, 0, 0, 0, none⟩ (by decide) fuel
      [⟨50, 50, 0, 0, none⟩] (by simp)
      (by intro b hb; rw [List.mem_singleton.mp hb]; decide)
  rw [h] at hf
  simp at hf

/-- Counterexample to **C3** as stated: for the degenerate region
`a = (y=0,x=0,h=0,w=0)` and `b = (y=100,x=100,h=5,w=5)` with
`max_distance = 0`, the merge condition is false, so the claim says both
regions come back unchanged (length 2) — but `merge_nearby_boxes` never
returns at all on this input (no amount of loop fuel finishes), because
`a` does not satisfy `should_merge` with its own copy inside the tail
slice and the working list grows forever. -/
theorem merge_nearby_two_boxes_counterexample :
    should_merge 0 (⟨0, 0, 0, 0, none⟩ : TextBox) ⟨100, 100, 5, 5, none⟩ = false ∧
    ¬ ∃ fuel : ℕ,
      (merge_nearby_boxes 0 fuel
        [⟨0, 0, 0, 0, none⟩, ⟨100, 100, 5, 5, none⟩]).isSome = true := by
  refine ⟨by decide, ?_⟩
  rintro ⟨fuel, hf⟩
  have h : merge_nearby_boxes 0 fuel [⟨0, 0, 0, 0, none⟩, ⟨100, 100, 5, 5, none⟩] = none := by
    unfold merge_nearby_boxes
    rw [if_neg (by simp)]
    exact mergeLoop_diverges 0 ⟨0, 0, 0, 0, none⟩ (by decide) fuel
      [⟨100, 100, 5, 5, none⟩] (by simp)
      (by intro b hb; rw [List.mem_singleton.mp hb]; decide)
  rw [h] at hf
  simp at hf

/-- Claim **C3 (amended)**: for every two label-free regions `a`, `b` and every
`max_distance` such that `a` satisfies the merge condition with itself
(`(w > 0 and -h < max_distance) or (h > 0 and -w < max_distance)` — in
particular any region of positive height and width with positive
`max_distance`), `merge_nearby_boxes [a, b]` terminates within two loop
iterations and returns exactly one region iff
`(overlap_x(a,b) > 0 and -overlap_y(a,b) < max_distance) or
(overlap_y(a,b) > 0 and -overlap_x(a,b) < max_distance)`, that one region
being the smallest enclosing rectangle of `a` and `b`; otherwise it
returns both regions unchanged (length 2).  (Without the self-merge
condition on `a` the call need not terminate, see the counterexample; and
a label on `a` would be cleared in the non-merging case, because `a` gets
merged with its own copy from the tail slice.) -/
theorem merge_nearby_two_boxes (a b : TextBox) (d : ℤ) (htext : a.text = none)
    (hself : should_merge d a a = true) :
    merge_nearby_boxes d 2 [a, b] =
      some (if should_merge d a b then
          [{ y := min a.y b.y, x := min a.x b.x,
             h := max (a.y + a.h) (b.y + b.h) - min a.y b.y,
             w := max (a.x + a.w) (b.x + b.w) - min a.x b.x, text := none }]
        else [a, b]) := by
  have hlen : ¬ ([a, b].length ≤ 1) := by simp
  unfold merge_nearby_boxes
  rw [if_neg hlen]
  by_cases hab : should_merge d a b = true
  · have hmerged : mergeBoxes a [a, b] =
        { y := min a.y b.y, x := min a.x b.x,
          h := max (a.y + a.h) (b.y + b.h) - min a.y b.y,
          w := max (a.x + a.w) (b.x + b.w) - min a.x b.x, text := none } := by
      simp [mergeBoxes]
    have hafter : merge_with_box d a [a, b] =
        [{ y := min a.y b.y, x := min a.x b.x,
           h := max (a.y + a.h) (b.y + b.h) - min a.y b.y,
           w := max (a.x + a.w) (b.x + b.w) - min a.x b.x, text := none }] := by
      unfold merge_with_box
      rw [if_neg (by simp [hself])]
      simp only [List.map_cons, List.map_nil, hself, hab]
      simp [compress, hmerged]
    rw [mergeLoop]
    rw [if_pos (by simp)]
    simp only [List.drop_zero, List.take_zero]
    simp only [hafter, List.length_nil, List.length_cons, List.nil_append]
    rw [if_neg (by simp)]
    rw [mergeLoop]
    rw [if_neg (by simp)]
    simp [hab]
  · have hab' : should_merge d a b = false := by
      simpa using hab
    have hma : mergeBoxes a [a] = a := by
      obtain ⟨ay, ax, ah, aw, at0⟩ := a
      have h0 : at0 = none := htext
      subst h0
      simp [mergeBoxes]
    have hafter : merge_with_box d a [a, b] = [a, b] := by
      unfold merge_with_box
      rw [if_neg (by simp [hself])]
      simp only [List.map_cons, List.map_nil, hself, hab']
      simp [compress, hma]
    rw [mergeLoop]
    rw [if_pos (by simp)]
    simp only [List.drop_zero, List.take_zero]
    simp only [hafter, List.length_nil, List.length_cons, List.nil_append]
    rw [if_pos (by simp)]
    rw [mergeLoop]
    rw [if_neg (by simp)]
    simp [hab']

/-- Witness for the amended C3: two full-height regions with a horizontal
gap of `3 < max_distance = 10` merge into one enclosing rectangle. -/
theorem merge_nearby_two_boxes_witness :
    merge_nearby_boxes 10 2 [⟨0, 0, 5, 5, none⟩, ⟨0, 8, 5, 5, none⟩] =
      some (if should_merge 10 (⟨0, 0, 5, 5, none⟩ : TextBox) ⟨0, 8, 5, 5, none⟩ then
          [{ y := min (0 : ℤ) 0, x := min (0 : ℤ) 8,
             h := max ((0 : ℤ) + 5) (0 + 5) - min (0 : ℤ) 0,
             w := max ((0 : ℤ) + 5) (8 + 5) - min (0 : ℤ) 8, text := none }]
        else [⟨0, 0, 5, 5, none⟩, ⟨0, 8, 5, 5, none⟩]) :=
  merge_nearby_two_boxes ⟨0, 0, 5, 5, none⟩ ⟨0, 8, 5, 5, none⟩ 10 rfl (by decide)

/-! ### `multi_intersection_over_union` agrees with the spec's description -/

theorem listMax_iouList_eq_bestIou (gold : List TextBox) (hg : gold ≠ [])
    (db : TextBox) : listMax (iouList db gold) = some (bestIou gold db) := by
  cases gold with
  | nil => exact absurd rfl hg
  | cons g gs => rfl

/-- The fold step of `multi_intersection_over_union`'s main loop,
accumulating the matched-gold-index set. -/
def matchStep (gold : List TextBox) (s : Finset ℕ) (db : TextBox) : Finset ℕ :=
  s ∪ argmaxIdxs db gold (bestIou gold db)

theorem multiAux_eq (gold : List TextBox) (hg : gold ≠ []) :
    ∀ (detected : List TextBox) (matched : Finset ℕ) (L : List ℚ),
      multiAux gold detected (matched, L) =
        some (detected.foldl (matchStep gold) matched,
          L ++ detected.map (bestIou gold)) := by
  intro detected
  induction detected with
  | nil => intro matched L; simp [multiAux]
  | cons db rest ih =>
    intro matched L
    rw [show multiAux gold (db :: rest) (matched, L) =
        (match listMax (iouList db gold) with
          | none => none
          | some m => multiAux gold rest
              (matched ∪ argmaxIdxs db gold m, L ++ [m])) from rfl]
    rw [listMax_iouList_eq_bestIou gold hg db]
    show multiAux gold rest
        (matched ∪ argmaxIdxs db gold (bestIou gold db), L ++ [bestIou gold db]) = _
    rw [ih (matched ∪ argmaxIdxs db gold (bestIou gold db)) (L ++ [bestIou gold db])]
    simp [matchStep]

theorem mem_foldl_matchStep (gold : List TextBox) (idx : ℕ) :
    ∀ (detected : List TextBox) (s : Finset ℕ),
      idx ∈ detected.foldl (matchStep gold) s ↔
        idx ∈ s ∨ ∃ db ∈ detected, idx ∈ argmaxIdxs db gold (bestIou gold db) := by
  intro detected
  induction detected with
  | nil => intro s; simp
  | cons db rest ih =>
    intro s
    rw [List.foldl_cons, ih]
    simp only [matchStep, Finset.mem_union, List.mem_cons]
    constructor
    · rintro ((h | h) | ⟨b, hb, h⟩)
      · exact Or.inl h
      · exact Or.inr ⟨db, Or.inl rfl, h⟩
      · exact Or.inr ⟨b, Or.inr hb, h⟩
    · rintro (h | ⟨b, rfl | hb, h⟩)
      · exact Or.inl (Or.inl h)
      · exact Or.inl (Or.inr h)
      · exact Or.inr ⟨b, hb, h⟩

theorem mem_argmaxIdxs_iff (db : TextBox) (gold : List TextBox) (m : ℚ) (idx : ℕ) :
    idx ∈ argmaxIdxs db gold m ↔
      idx < gold.length ∧ intersection_over_union db (gold.getD idx default) = m := by
  simp [argmaxIdxs, Finset.mem_filter, Finset.mem_range]

theorem matched_iff_isMatchedGold (detected gold : List TextBox) (idx : ℕ)
    (hlt : idx < gold.length) :
    idx ∈ detected.foldl (matchStep gold) ∅ ↔
      isMatchedGold detected gold idx = true := by
  rw [mem_foldl_matchStep]
  simp only [Finset.not_mem_empty, false_or]
  rw [isMatchedGold, List.any_eq_true]
  constructor
  · rintro ⟨db, hdb, h⟩
    rw [mem_argmaxIdxs_iff] at h
    exact ⟨db, hdb, decide_eq_true h.2⟩
  · rintro ⟨db, hdb, h⟩
    exact ⟨db, hdb, (mem_argmaxIdxs_iff db gold (bestIou gold db) idx).mpr
      ⟨hlt, of_decide_eq_true h⟩⟩

theorem multi_iou_spec_general (detected gold : List TextBox)
    (hd : detected ≠ []) (hg : gold ≠ []) :
    multi_intersection_over_union detected gold =
      some (averageBestIouSpec detected gold) := by
  unfold multi_intersection_over_union
  rw [multiAux_eq gold hg detected ∅ []]
  have hfilter : (List.range gold.length).filter
        (fun idx => decide (idx ∉ detected.foldl (matchStep gold) ∅)) =
      (List.range gold.length).filter
        (fun idx => !isMatchedGold detected gold idx) := by
    apply List.filter_congr
    intro idx hidx
    have hlt : idx < gold.length := List.mem_range.mp hidx
    have hiff := matched_iff_isMatchedGold detected gold idx hlt
    by_cases hM : isMatchedGold detected gold idx = true
    · simp [hM, hiff]
    · have hM' : isMatchedGold detected gold idx = false := by simpa using hM
      have : idx ∉ detected.foldl (matchStep gold) ∅ := fun hc => hM (hiff.mp hc)
      simp [hM', this]
  show (let penalized := ([] ++ detected.map (bestIou gold)) ++
      (((List.range gold.length).filter
        (fun idx => decide (idx ∉ detected.foldl (matchStep gold) ∅))).map
          (fun _ => (0 : ℚ)))
    if penalized.isEmpty then none
    else some (penalized.sum / (penalized.length : ℚ))) = _
  simp only [List.nil_append, hfilter]
  have hne : (detected.map (bestIou gold) ++
      (((List.range gold.length).filter
        (fun idx => !isMatchedGold detected gold idx)).map
          (fun _ => (0 : ℚ)))).isEmpty = false := by
    rcases detected with _ | ⟨db, rest⟩
    · exact absurd rfl hd
    · rfl
  rw [if_neg (by rw [hne]; exact Bool.false_ne_true)]
  rfl

theorem iou_self_unit :
    intersection_over_union ⟨0, 0, 5, 5, none⟩ ⟨0, 0, 5, 5, none⟩ = 1 := by
  have h1 : intersection_area (⟨0, 0, 5, 5, none⟩ : TextBox) ⟨0, 0, 5, 5, none⟩ = 36 := by
    decide
  have h2 : box_area (⟨0, 0, 5, 5, none⟩ : TextBox) = 36 := by decide
  rw [intersection_over_union, h1, h2]
  norm_num

theorem iou_far_zero :
    intersection_over_union ⟨0, 0, 5, 5, none⟩ ⟨100, 100, 5, 5, none⟩ = 0 := by
  have h1 : intersection_area (⟨0, 0, 5, 5, none⟩ : TextBox) ⟨100, 100, 5, 5, none⟩ = 0 := by
    decide
  rw [intersection_over_union, h1]
  norm_num

theorem avg_spec_half :
    averageBestIouSpec [⟨0, 0, 5, 5, none⟩]
      [⟨0, 0, 5, 5, none⟩, ⟨100, 100, 5, 5, none⟩] = 1 / 2 := by
  have hb : bestIou [⟨0, 0, 5, 5, none⟩, ⟨100, 100, 5, 5, none⟩] ⟨0, 0, 5, 5, none⟩ = 1 := by
    rw [bestIou, iouList]
    simp [listMax, iou_self_unit, iou_far_zero]
  simp [averageBestIouSpec, hb, isMatchedGold, List.range_succ, iou_self_unit, iou_far_zero]

theorem avg_spec_one :
    averageBestIouSpec [⟨0, 0, 5, 5, none⟩] [⟨0, 0, 5, 5, none⟩] = 1 := by
  have hb : bestIou [⟨0, 0, 5, 5, none⟩] ⟨0, 0, 5, 5, none⟩ = 1 := by
    rw [bestIou, iouList]
    simp [listMax, iou_self_unit]
  simp [averageBestIouSpec, hb, isMatchedGold, List.range_succ, iou_self_unit]

/-- Claim **C2**: for non-empty detected and gold sequences,
`multi_intersection_over_union` returns the mean of one value per detected
region (its maximum IoU against all gold regions) plus one `0.0` term per
gold region whose index is never among the arg-max (ties included) gold
indices of any detected region; in particular it returns `1/2` for
`detected = [(0,0,5,5)]`, `gold = [(0,0,5,5), (100,100,5,5)]`, and `1` for
identical singleton detected and gold. -/
theorem multi_iou_matches_spec :
    (∀ detected gold : List TextBox, detected ≠ [] → gold ≠ [] →
      multi_intersection_over_union detected gold =
        some (averageBestIouSpec detected gold)) ∧
    multi_intersection_over_union [⟨0, 0, 5, 5, none⟩]
      [⟨0, 0, 5, 5, none⟩, ⟨100, 100, 5, 5, none⟩] = some (1 / 2) ∧
    multi_intersection_over_union [⟨0, 0, 5, 5, none⟩] [⟨0, 0, 5, 5, none⟩] =
      some 1 := by
  refine ⟨multi_iou_spec_general, ?_, ?_⟩
  · rw [multi_iou_spec_general _ _ (by simp) (by simp), avg_spec_half]
  · rw [multi_iou_spec_general _ _ (by simp) (by simp), avg_spec_one]

/-- Witness for C2: the general part of the theorem applied at concrete
non-empty inputs. -/
theorem multi_iou_matches_spec_witness :
    multi_intersection_over_union [⟨0, 0, 5, 5, none⟩] [⟨3, 3, 5, 5, none⟩] =
      some (averageBestIouSpec [⟨0, 0, 5, 5, none⟩] [⟨3, 3, 5, 5, none⟩]) :=
  multi_iou_matches_spec.1 [⟨0, 0, 5, 5, none⟩] [⟨3, 3, 5, 5, none⟩]
    (by simp) (by simp)

end Detextify
